import Mathlib

/-
Verification of the openGB server bridge (src/opengb/server.py) against its
natural-language specification: a shallow embedding of the data model and the
operations of the bridge, followed by theorems settling the frozen claims.
-/

set_option autoImplicit false

namespace OpenGB

/-- JSON-like values, as produced by json.loads / consumed by json.dumps in
server.py.  Arrays are not needed by any code path the claims touch. -/
inductive JVal where
  | null : JVal
  | bool (b : Bool) : JVal
  | num (n : Int) : JVal
  | str (s : String) : JVal
  | obj (kvs : List (String × JVal)) : JVal

/-- The Python exception kinds raised by the code paths under study. -/
inductive PyErr where
  | keyError : PyErr
  | typeError : PyErr
  | valueError : PyErr
  | indexError : PyErr
  | ioError : PyErr
  | wsClosed : PyErr
deriving DecidableEq, Repr

/-- Python subscripting d[k]: a KeyError on a dict without the key, a
TypeError when the subscripted value is not a dict (as for json.loads results
that are strings, numbers, lists or null). -/
def JVal.getKey : JVal → String → Except PyErr JVal
  | .obj kvs, k =>
    match kvs.find? (fun kv => kv.1 == k) with
    | some kv => Except.ok kv.2
    | none => Except.error PyErr.keyError
  | _, _ => Except.error PyErr.typeError

/-- Python equality between a decoded JSON value and a string literal, as in
`event["event"] == "log"`: true exactly on the equal string, never an error. -/
def isStr (v : JVal) (s : String) : Bool :=
  match v with
  | .str t => t == s
  | _ => false

/-- Modelled from the spec: the `opengb.printer.State` enumeration lives in
opengb/printer.py, which is not part of the sources under study; the spec
gives the minimum variant set (disconnected, ready, printing, paused, error)
and states that the exact set is device-driver-defined. -/
inductive State where
  | disconnected : State
  | ready : State
  | printing : State
  | paused : State
  | error : State
deriving DecidableEq, Repr

/-- Modelled from the spec: construction of an `opengb.printer.State` from a
received token, as in `State(event["params"]["new"])`.  A Python Enum call
returns the member for a member value and raises ValueError for anything
else; `none` here stands for that ValueError. -/
def State.ofVal : JVal → Option State
  | .str "disconnected" => some State.disconnected
  | .str "ready" => some State.ready
  | .str "printing" => some State.printing
  | .str "paused" => some State.paused
  | .str "error" => some State.error
  | _ => none

/-- The PRINTER global of server.py: the local cache of printer state.  The
temp and progress fields hold whatever params mapping the last event carried,
so they are kept as raw values. -/
structure Printer where
  state : State
  temp : JVal
  progress : JVal

/-- The initial PRINTER value of server.py. -/
def initPrinter : Printer :=
  { state := State.disconnected
  , temp := JVal.obj [("bed", JVal.num 0), ("nozzle1", JVal.num 0), ("nozzle2", JVal.num 0)]
  , progress := JVal.obj [("current", JVal.num 0), ("total", JVal.num 0)] }

/-- The body of the try block of process_event: the if/elif chain over
`event["event"]`.  KeyError from a missing key propagates out of this body
(to be caught by the except clause), a TypeError from subscripting a
non-dict propagates as well, and a ValueError from the State enum call
propagates uncaught. -/
def process_event_try (p : Printer) (event : JVal) : Except PyErr Printer :=
  match event.getKey "event" with
  | Except.error e => Except.error e
  | Except.ok ev =>
    if isStr ev "state_change" then
      match event.getKey "params" with
      | Except.error e => Except.error e
      | Except.ok ps =>
        match ps.getKey "new" with
        | Except.error e => Except.error e
        | Except.ok nv =>
          match State.ofVal nv with
          | some s => Except.ok { p with state := s }
          | none => Except.error PyErr.valueError
    else if isStr ev "temp_update" then
      match event.getKey "params" with
      | Except.error e => Except.error e
      | Except.ok ps => Except.ok { p with temp := ps }
    else if isStr ev "print_progress" then
      match event.getKey "params" with
      | Except.error e => Except.error e
      | Except.ok ps => Except.ok { p with progress := ps }
    else
      Except.ok p

/-- process_event of server.py: runs the if/elif chain, catching exactly
KeyError (logged as a malformed event, state unchanged); every other
exception propagates to the caller. -/
def process_event (p : Printer) (event : JVal) : Except PyErr Printer :=
  match process_event_try p event with
  | Except.error PyErr.keyError => Except.ok p
  | Except.error e => Except.error e
  | Except.ok p2 => Except.ok p2

/-- One registered websocket client: its identity and whether a write to its
transport raises (a closed or failed connection). -/
structure Client where
  id : Nat
  writeFails : Bool
deriving DecidableEq, Repr

/-- tornado write_message on one client: delivers the message or raises. -/
def write_message (c : Client) (m : JVal) : Except PyErr (Nat × JVal) :=
  if c.writeFails then Except.error PyErr.wsClosed else Except.ok (c.id, m)

/-- broadcast_message of server.py: a bare `for each in CLIENTS:
each.write_message(message)` loop with no exception handling.  Returns the
deliveries actually made, in registry order, and the exception (if any) that
aborted the loop and propagates to the caller. -/
def broadcast_message (clients : List Client) (m : JVal) :
    List (Nat × JVal) × Option PyErr :=
  match clients with
  | [] => ([], none)
  | c :: rest =>
    match write_message c m with
    | Except.error e => ([], some e)
    | Except.ok d =>
      let r := broadcast_message rest m
      (d :: r.1, r.2)

/-- Evaluation of the arguments `event["params"]["level"]` and
`event["params"]["msg"]` of the LOGGER.log call for a log event. -/
def log_access (e : JVal) : Except PyErr Unit :=
  match e.getKey "params" with
  | Except.error err => Except.error err
  | Except.ok ps =>
    match ps.getKey "level" with
    | Except.error err => Except.error err
    | Except.ok _ =>
      match ps.getKey "msg" with
      | Except.error err => Except.error err
      | Except.ok _ => Except.ok ()

/-- The body of the try block of process_printer_events for one popped
event: classify on `event["event"]`; a log event only touches the logger;
any other event is first broadcast, then applied to the printer cache.
Returns the deliveries made and either the updated printer or the exception
that escaped the body. -/
def drain_try (clients : List Client) (p : Printer) (e : JVal) :
    List (Nat × JVal) × Except PyErr Printer :=
  match e.getKey "event" with
  | Except.error err => ([], Except.error err)
  | Except.ok ev =>
    if isStr ev "log" then
      match log_access e with
      | Except.error err => ([], Except.error err)
      | Except.ok _ => ([], Except.ok p)
    else
      let b := broadcast_message clients e
      match b.2 with
      | some err => (b.1, Except.error err)
      | none =>
        match process_event p e with
        | Except.ok p2 => (b.1, Except.ok p2)
        | Except.error err => (b.1, Except.error err)

/-- The outcome of one invocation of the drain task: the printer cache after
the tick, the remaining inbound queue, the messages delivered to clients
during the tick, and the exception (if any) that escaped the invocation. -/
structure DrainResult where
  printer : Printer
  queue : List JVal
  delivered : List (Nat × JVal)
  raised : Option PyErr

/-- process_printer_events of server.py: if the inbound queue is non-empty,
pop exactly one event and process it inside a try block whose only except
clause catches TypeError (logged, event dropped); every other exception
escapes the invocation. -/
def process_printer_events (clients : List Client) (p : Printer)
    (q : List JVal) : DrainResult :=
  match q with
  | [] => { printer := p, queue := [], delivered := [], raised := none }
  | e :: rest =>
    let t := drain_try clients p e
    match t.2 with
    | Except.ok p2 => { printer := p2, queue := rest, delivered := t.1, raised := none }
    | Except.error PyErr.typeError =>
      { printer := p, queue := rest, delivered := t.1, raised := none }
    | Except.error err =>
      { printer := p, queue := rest, delivered := t.1, raised := some err }

/-- A row of the opengb.database Counter table. -/
structure Counter where
  name : String
  count : Int
deriving DecidableEq, Repr

/-- Does the pattern occur at the head of the character list? -/
def matchHere : List Char → List Char → Bool
  | _, [] => true
  | [], _ :: _ => false
  | c :: cs, p :: ps => c == p && matchHere cs ps

/-- Does the pattern occur anywhere in the character list? -/
def occursIn : List Char → List Char → Bool
  | [], pat => pat.isEmpty
  | c :: cs, pat => matchHere (c :: cs) pat || occursIn cs pat

/-- Substring containment, as tested by `Counter.name.contains("uptime")`. -/
def strContains (s pat : String) : Bool :=
  occursIn s.data pat.data

set_option linter.unusedVariables false in
/-- update_counters of server.py.  The signature carries the documented step
argument (`count`, default 1), but the UPDATE statement is
`count = Counter.count + 1`: the increment is the literal 1. -/
def update_counters (count : Int) (cs : List Counter) : List Counter :=
  cs.map (fun c =>
    if strContains c.name "uptime" then { c with count := c.count + 1 } else c)

/-- A row of the opengb.database GCodeFile table. -/
structure GCodeFile where
  id : Nat
  name : String
  size : Nat
deriving DecidableEq, Repr

/-- The state of a stored gcode blob under options.gcode_dir, keyed by file
id: absent on disk; present (os.path.isfile is true) but failing at open
time, e.g. with PermissionError; present and opened but failing at read
time; or present with the given text.  The open/read distinction matters
because in get_gcode_file the open call sits outside the try/except that
wraps only the read. -/
inductive Blob where
  | missing : Blob
  | openFails : Blob
  | readFails : Blob
  | stored (s : String) : Blob
deriving DecidableEq, Repr

/-- The storage collaborators of the dispatcher: the GCodeFile table, the
blob directory, the autoincrement id the next created row receives, which
blob writes fail with IOError, and the Counter table. -/
structure Storage where
  db : List GCodeFile
  blobs : Nat → Blob
  nextId : Nat
  writeFails : Nat → Bool
  counters : List Counter

/-- The result rows returned by the gcode file queries. -/
structure GFileInfo where
  id : Nat
  name : String
  size : Nat
  content : Option String
deriving DecidableEq, Repr

/-- get_gcode_file of server.py: metadata lookup by id, raising IndexError
when the row does not exist; with content requested, a missing blob
(os.path.isfile false) raises IndexError, the open call is outside the
try/except so an IOError raised at open propagates uncaught as a generic
I/O failure, and an IOError while reading is caught and re-raised as
IndexError. -/
def get_gcode_file (st : Storage) (id : Nat) (content : Bool) :
    Except PyErr GFileInfo :=
  match st.db.find? (fun g => g.id == id) with
  | none => Except.error PyErr.indexError
  | some g =>
    if content then
      match st.blobs id with
      | Blob.missing => Except.error PyErr.indexError
      | Blob.openFails => Except.error PyErr.ioError
      | Blob.readFails => Except.error PyErr.indexError
      | Blob.stored s => Except.ok { id := g.id, name := g.name, size := g.size, content := some s }
    else
      Except.ok { id := g.id, name := g.name, size := g.size, content := none }

/-- The whole front-end state a MessageHandler method can touch: the PRINTER
cache, the to_printer queue and the storage collaborators. -/
structure ServerState where
  printer : Printer
  toPrinter : List JVal
  storage : Storage

/-- MessageHandler.set_temp: enqueue one serialized set_temp command and
return True.  Queue put is non-blocking (unbounded multiprocessing queue). -/
def set_temp (st : ServerState) (bed nozzle1 nozzle2 : JVal) :
    ServerState × JVal :=
  ({ st with toPrinter := st.toPrinter ++
      [JVal.obj [("method", JVal.str "set_temp"),
                 ("params", JVal.obj [("bed", bed), ("nozzle1", nozzle1), ("nozzle2", nozzle2)])]] },
   JVal.bool true)

/-- MessageHandler.move_head: enqueue one serialized move_head command and
return True. -/
def move_head (st : ServerState) (x y z : JVal) : ServerState × JVal :=
  ({ st with toPrinter := st.toPrinter ++
      [JVal.obj [("method", JVal.str "move_head"),
                 ("params", JVal.obj [("x", x), ("y", y), ("z", z)])]] },
   JVal.bool true)

/-- MessageHandler.home_head: enqueue one serialized home_head command and
return True. -/
def home_head (st : ServerState) (x y z : JVal) : ServerState × JVal :=
  ({ st with toPrinter := st.toPrinter ++
      [JVal.obj [("method", JVal.str "home_head"),
                 ("params", JVal.obj [("x", x), ("y", y), ("z", z)])]] },
   JVal.bool true)

/-- The result dict returned by put_gcode_file. -/
structure PutResult where
  id : Nat
  name : String
  size : Nat
deriving DecidableEq, Repr

/-- MessageHandler.put_gcode_file: size is the byte length of the encoded
payload; the GCodeFile row is created first; then `open(destination, "wb")`
creates (truncates) the blob and the write either stores the payload or
raises IOError, which is caught, logged and re-raised as
IOError("Unable to save gcode file.") with the row already committed and the
blob left as created, empty. -/
def put_gcode_file (st : ServerState) (payload name : String) :
    ServerState × Except PyErr PutResult :=
  let size := payload.utf8ByteSize
  let fid := st.storage.nextId
  let db2 := st.storage.db ++ [{ id := fid, name := name, size := size }]
  if st.storage.writeFails fid then
    ({ st with storage := { st.storage with
        db := db2
        nextId := fid + 1
        blobs := fun i => if i = fid then Blob.stored "" else st.storage.blobs i } },
     Except.error PyErr.ioError)
  else
    ({ st with storage := { st.storage with
        db := db2
        nextId := fid + 1
        blobs := fun i => if i = fid then Blob.stored payload else st.storage.blobs i } },
     Except.ok { id := fid, name := name, size := size })

/-- get_gcode_file as invoked through the dispatcher: the method reads the
table and the blob directory and touches nothing else. -/
def get_gcode_file_op (st : ServerState) (id : Nat) (content : Bool) :
    ServerState × Except PyErr GFileInfo :=
  (st, get_gcode_file st.storage id content)

/-- MessageHandler.get_gcode_files: list every row, metadata only. -/
def get_gcode_files (st : ServerState) : ServerState × List GCodeFile :=
  (st, st.storage.db.map (fun g => { id := g.id, name := g.name, size := g.size }))

/-- MessageHandler.get_counters: report every counter row. -/
def get_counters (st : ServerState) : ServerState × List (String × Int) :=
  (st, st.storage.counters.map (fun c => (c.name, c.count)))

/-
Helper lemmas shared between claims.
-/

/-- When no registered write fails, the broadcast loop delivers the message
to every client in registry order and nothing is raised. -/
theorem broadcast_ok_of_writes_ok (cs : List Client) (m : JVal)
    (h : ∀ c ∈ cs, c.writeFails = false) :
    broadcast_message cs m = (cs.map (fun c => (c.id, m)), none) := by
  induction cs with
  | nil => rfl
  | cons a t ih =>
    have ha : a.writeFails = false := h a (List.mem_cons_self a t)
    have iht := ih (fun x hx => h x (List.mem_cons_of_mem a hx))
    simp [broadcast_message, write_message, ha, iht]

/-- A failing write aborts the broadcast loop: exactly the clients before the
first failing one receive the message and the exception propagates. -/
theorem broadcast_stops_at_first_failure (pre : List Client) (c : Client)
    (rest : List Client) (m : JVal)
    (hpre : ∀ x ∈ pre, x.writeFails = false) (hc : c.writeFails = true) :
    broadcast_message (pre ++ c :: rest) m =
      (pre.map (fun x => (x.id, m)), some PyErr.wsClosed) := by
  induction pre with
  | nil => simp [broadcast_message, write_message, hc]
  | cons a t ih =>
    have ha : a.writeFails = false := hpre a (List.mem_cons_self a t)
    have iht := ih (fun x hx => hpre x (List.mem_cons_of_mem a hx))
    simp [broadcast_message, write_message, ha, iht]

/-
Claim C1.
-/

/-- Claim C1 counterexample: with registry [client 0 (write fails), client 1],
broadcast_message raises the write failure to its caller and client 1,
registered after the failing client, receives nothing — refuting the claim
that a write failure neither prevents later deliveries nor raises. -/
theorem broadcast_failure_starves_later_clients_cex :
    (broadcast_message [{ id := 0, writeFails := true },
                        { id := 1, writeFails := false }] JVal.null).2
        = some PyErr.wsClosed ∧
    (broadcast_message [{ id := 0, writeFails := true },
                        { id := 1, writeFails := false }] JVal.null).1 = [] :=
  ⟨rfl, rfl⟩

/-- Claim C1 (amended): broadcast_message writes the message to the
registered connections in registry order only until the first write failure.
When every write succeeds each registered connection receives the message in
registry order and nothing is raised; a write failure raises to the caller of
broadcast_message and no connection after the failing one receives the
message. -/
theorem broadcast_message_until_first_failure :
    (∀ (cs : List Client) (m : JVal), (∀ c ∈ cs, c.writeFails = false) →
      broadcast_message cs m = (cs.map (fun c => (c.id, m)), none)) ∧
    (∀ (pre : List Client) (c : Client) (rest : List Client) (m : JVal),
      (∀ x ∈ pre, x.writeFails = false) → c.writeFails = true →
      broadcast_message (pre ++ c :: rest) m =
        (pre.map (fun x => (x.id, m)), some PyErr.wsClosed)) :=
  ⟨broadcast_ok_of_writes_ok, broadcast_stops_at_first_failure⟩

/-- Claim C1 witness: the amended theorem evaluated on a healthy registry and
on a registry whose second client fails. -/
theorem broadcast_message_until_first_failure_witness :
    broadcast_message [{ id := 0, writeFails := false }] JVal.null
        = ([(0, JVal.null)], none) ∧
    broadcast_message [{ id := 0, writeFails := false },
                       { id := 1, writeFails := true },
                       { id := 2, writeFails := false }] JVal.null
        = ([(0, JVal.null)], some PyErr.wsClosed) :=
  ⟨broadcast_message_until_first_failure.1 [{ id := 0, writeFails := false }]
      JVal.null (by decide),
   broadcast_message_until_first_failure.2 [{ id := 0, writeFails := false }]
      { id := 1, writeFails := true } [{ id := 2, writeFails := false }]
      JVal.null (by decide) rfl⟩

/-
Claim C2.
-/

/-- Claim C2 counterexample: an inbound event with no "event" key — with one
healthy registered client — makes the drain task invocation raise KeyError
(the except clause catches only TypeError), instead of logging and dropping
the event as the claim states. -/
theorem drain_missing_event_key_raises_cex :
    (process_printer_events [{ id := 0, writeFails := false }] initPrinter
        [JVal.obj [("params", JVal.obj [])]]).raised = some PyErr.keyError :=
  rfl

/-- Claim C2 (amended): one invocation of the drain task on a malformed
event behaves as follows.  An event without an "event" key raises KeyError
out of the invocation with nothing delivered; a log event whose params lack
"level" or "msg" raises KeyError out of the invocation with nothing
delivered; an effectful event (here a state_change) whose expected params
are missing is first broadcast to every registered client, after which the
KeyError from the snapshot update is caught and logged, so the invocation
does not raise and the snapshot is unchanged — but the malformed event was
delivered to the clients. -/
theorem drain_malformed_event_behavior :
    (∀ (clients : List Client) (p : Printer) (e : JVal) (rest : List JVal),
      e.getKey "event" = Except.error PyErr.keyError →
      process_printer_events clients p (e :: rest) =
        { printer := p, queue := rest, delivered := [],
          raised := some PyErr.keyError }) ∧
    (∀ (clients : List Client) (p : Printer) (e : JVal) (rest : List JVal),
      e.getKey "event" = Except.ok (JVal.str "log") →
      log_access e = Except.error PyErr.keyError →
      process_printer_events clients p (e :: rest) =
        { printer := p, queue := rest, delivered := [],
          raised := some PyErr.keyError }) ∧
    (∀ (clients : List Client) (p : Printer) (e : JVal) (rest : List JVal),
      (∀ c ∈ clients, c.writeFails = false) →
      e.getKey "event" = Except.ok (JVal.str "state_change") →
      e.getKey "params" = Except.error PyErr.keyError →
      process_printer_events clients p (e :: rest) =
        { printer := p, queue := rest,
          delivered := clients.map (fun c => (c.id, e)), raised := none }) := by
  refine ⟨?_, ?_, ?_⟩
  · intro clients p e rest h
    simp [process_printer_events, drain_try, h]
  · intro clients p e rest hev hacc
    have i1 : isStr (JVal.str "log") "log" = true := rfl
    simp [process_printer_events, drain_try, hev, hacc, i1]
  · intro clients p e rest hcl hev hps
    have i1 : isStr (JVal.str "state_change") "log" = false := rfl
    have i2 : isStr (JVal.str "state_change") "state_change" = true := rfl
    have hb := broadcast_ok_of_writes_ok clients e hcl
    have hpe : process_event p e = Except.ok p := by
      simp [process_event, process_event_try, hev, hps, i2]
    simp [process_printer_events, drain_try, hev, i1, hb, hpe]

/-- Claim C2 witness: the amended theorem evaluated on an event without an
"event" key, a log event missing its level and msg, and a state_change event
without params broadcast to one client. -/
theorem drain_malformed_event_behavior_witness :
    process_printer_events [] initPrinter [JVal.obj [("params", JVal.obj [])]]
      = { printer := initPrinter, queue := [], delivered := [],
          raised := some PyErr.keyError } ∧
    process_printer_events [] initPrinter
        [JVal.obj [("event", JVal.str "log"), ("params", JVal.obj [])]]
      = { printer := initPrinter, queue := [], delivered := [],
          raised := some PyErr.keyError } ∧
    process_printer_events [{ id := 0, writeFails := false }] initPrinter
        [JVal.obj [("event", JVal.str "state_change")]]
      = { printer := initPrinter, queue := [],
          delivered := [(0, JVal.obj [("event", JVal.str "state_change")])],
          raised := none } :=
  ⟨drain_malformed_event_behavior.1 [] initPrinter
      (JVal.obj [("params", JVal.obj [])]) [] rfl,
   drain_malformed_event_behavior.2.1 [] initPrinter
      (JVal.obj [("event", JVal.str "log"), ("params", JVal.obj [])]) [] rfl rfl,
   drain_malformed_event_behavior.2.2 [{ id := 0, writeFails := false }]
      initPrinter (JVal.obj [("event", JVal.str "state_change")]) []
      (by decide) rfl rfl⟩

/-
Claim C3.
-/

/-- Claim C3 counterexample: a state_change event carrying a value outside
the State variant set is not accepted and cached verbatim — the State enum
call raises ValueError, which process_event propagates (its except clause
catches only KeyError). -/
theorem state_change_unknown_value_raises_cex :
    process_event initPrinter
        (JVal.obj [("event", JVal.str "state_change"),
                   ("params", JVal.obj [("new", JVal.str "frobnicate")])]) =
      Except.error PyErr.valueError :=
  rfl

/-- Claim C3 (amended): processing a state_change event converts the "new"
value through the State enumeration rather than caching it verbatim: a value
belonging to the variant set is accepted and the corresponding member is
cached, while any other value makes process_event raise ValueError. -/
theorem process_event_state_change_enum_checked :
    (∀ (p : Printer) (v : JVal) (s : State), State.ofVal v = some s →
      process_event p (JVal.obj [("event", JVal.str "state_change"),
          ("params", JVal.obj [("new", v)])]) = Except.ok { p with state := s }) ∧
    (∀ (p : Printer) (v : JVal), State.ofVal v = none →
      process_event p (JVal.obj [("event", JVal.str "state_change"),
          ("params", JVal.obj [("new", v)])]) = Except.error PyErr.valueError) := by
  constructor
  · intro p v s h
    have hev : (JVal.obj [("event", JVal.str "state_change"),
        ("params", JVal.obj [("new", v)])]).getKey "event"
        = Except.ok (JVal.str "state_change") := rfl
    have hps : (JVal.obj [("event", JVal.str "state_change"),
        ("params", JVal.obj [("new", v)])]).getKey "params"
        = Except.ok (JVal.obj [("new", v)]) := rfl
    have hnv : (JVal.obj [("new", v)]).getKey "new" = Except.ok v := rfl
    have i2 : isStr (JVal.str "state_change") "state_change" = true := rfl
    simp [process_event, process_event_try, hev, hps, hnv, i2, h]
  · intro p v h
    have hev : (JVal.obj [("event", JVal.str "state_change"),
        ("params", JVal.obj [("new", v)])]).getKey "event"
        = Except.ok (JVal.str "state_change") := rfl
    have hps : (JVal.obj [("event", JVal.str "state_change"),
        ("params", JVal.obj [("new", v)])]).getKey "params"
        = Except.ok (JVal.obj [("new", v)]) := rfl
    have hnv : (JVal.obj [("new", v)]).getKey "new" = Except.ok v := rfl
    have i2 : isStr (JVal.str "state_change") "state_change" = true := rfl
    simp [process_event, process_event_try, hev, hps, hnv, i2, h]

/-- Claim C3 witness: the amended theorem evaluated on a member value
("printing") and on a non-member value (the number 42). -/
theorem process_event_state_change_enum_checked_witness :
    process_event initPrinter (JVal.obj [("event", JVal.str "state_change"),
        ("params", JVal.obj [("new", JVal.str "printing")])]) =
      Except.ok { initPrinter with state := State.printing } ∧
    process_event initPrinter (JVal.obj [("event", JVal.str "state_change"),
        ("params", JVal.obj [("new", JVal.num 42)])]) =
      Except.error PyErr.valueError :=
  ⟨process_event_state_change_enum_checked.1 initPrinter
      (JVal.str "printing") State.printing rfl,
   process_event_state_change_enum_checked.2 initPrinter (JVal.num 42) rfl⟩

/-
Claim C4.
-/

/-- Claim C4: update_counters evaluated at step 2 on an uptime counter at 0
and a non-matching counter at 5.  The uptime counter is incremented by the
hard-coded literal 1, not by the requested step 2 — contradicting the
documented, configurable step — while non-matching counters are unchanged. -/
theorem update_counters_ignores_step :
    update_counters 2 [{ name := "printer_uptime_mins", count := 0 }] =
      [{ name := "printer_uptime_mins", count := 1 }] ∧
    update_counters 2 [{ name := "printer_uptime_mins", count := 0 }] ≠
      [{ name := "printer_uptime_mins", count := 2 }] ∧
    update_counters 2 [{ name := "filament_used", count := 5 }] =
      [{ name := "filament_used", count := 5 }] := by
  refine ⟨by decide, by decide, by decide⟩

/-
Concrete states used by witnesses and counterexamples.
-/

/-- An empty storage whose blob writes succeed. -/
def st0 : Storage :=
  { db := [], blobs := fun _ => Blob.missing, nextId := 1,
    writeFails := fun _ => false, counters := [] }

/-- A fresh server state over the empty storage. -/
def ss0 : ServerState :=
  { printer := initPrinter, toPrinter := [], storage := st0 }

/-- A fresh server state over an empty storage whose blob writes all fail. -/
def ssFail : ServerState :=
  { printer := initPrinter, toPrinter := [],
    storage := { db := [], blobs := fun _ => Blob.missing, nextId := 1,
                 writeFails := fun _ => true, counters := [] } }

/-- A storage holding one record whose blob fails at read time. -/
def stReadFail : Storage :=
  { db := [{ id := 1, name := "a.gcode", size := 2 }],
    blobs := fun _ => Blob.readFails, nextId := 2,
    writeFails := fun _ => false, counters := [] }

/-- A storage holding one record whose blob is present but fails at open
time (e.g. permission denied). -/
def stOpenFail : Storage :=
  { db := [{ id := 1, name := "a.gcode", size := 2 }],
    blobs := fun _ => Blob.openFails, nextId := 2,
    writeFails := fun _ => false, counters := [] }

/-
Claim C5.
-/

/-- Claim C5 counterexample: a known id whose blob is present but fails at
open time — the open call at server.py:171 sits outside the try/except that
wraps only the read, so get_gcode_file raises the generic I/O kind, not the
not-found kind, refuting the claim that a missing or unreadable blob is
always reported as not-found. -/
theorem unreadable_blob_generic_failure_cex :
    get_gcode_file stOpenFail 1 true = Except.error PyErr.ioError ∧
    get_gcode_file stOpenFail 1 true ≠ Except.error PyErr.indexError := by
  refine ⟨rfl, ?_⟩
  intro h
  rw [show get_gcode_file stOpenFail 1 true = Except.error PyErr.ioError from rfl] at h
  simp at h

/-- Claim C5 (amended): an unknown id always fails with the not-found kind —
whatever state the blob store is in, since the blob store is never consulted
on that path — and for a known id with content requested a missing blob and
a blob whose read fails are both reported as the not-found kind; but a
present blob that fails at open raises a generic I/O failure uncaught, so
the uniform unknown-id surface does not extend to open failures. -/
theorem get_gcode_file_error_kinds (st : Storage) (id : Nat)
    (content : Bool) :
    (st.db.find? (fun g => g.id == id) = none →
      get_gcode_file st id content = Except.error PyErr.indexError) ∧
    (∀ g, st.db.find? (fun g2 => g2.id == id) = some g → content = true →
      (st.blobs id = Blob.missing ∨ st.blobs id = Blob.readFails) →
      get_gcode_file st id content = Except.error PyErr.indexError) ∧
    (∀ g, st.db.find? (fun g2 => g2.id == id) = some g → content = true →
      st.blobs id = Blob.openFails →
      get_gcode_file st id content = Except.error PyErr.ioError) := by
  refine ⟨?_, ?_, ?_⟩
  · intro hf
    simp [get_gcode_file, hf]
  · intro g hf hcontent hblob
    subst hcontent
    cases hblob with
    | inl hb => simp [get_gcode_file, hf, hb]
    | inr hb => simp [get_gcode_file, hf, hb]
  · intro g hf hcontent hblob
    subst hcontent
    simp [get_gcode_file, hf, hblob]

/-- Claim C5 witness: the amended theorem evaluated on an unknown id over
the empty storage, a known id whose blob read fails, and a known id whose
blob open fails. -/
theorem get_gcode_file_error_kinds_witness :
    get_gcode_file st0 7 true = Except.error PyErr.indexError ∧
    get_gcode_file stReadFail 1 true = Except.error PyErr.indexError ∧
    get_gcode_file stOpenFail 1 true = Except.error PyErr.ioError :=
  ⟨(get_gcode_file_error_kinds st0 7 true).1 rfl,
   (get_gcode_file_error_kinds stReadFail 1 true).2.1
      { id := 1, name := "a.gcode", size := 2 } rfl rfl (Or.inr rfl),
   (get_gcode_file_error_kinds stOpenFail 1 true).2.2
      { id := 1, name := "a.gcode", size := 2 } rfl rfl rfl⟩

/-
Claim C6.
-/

/-- Claim C6: set_temp with bed 200 and the null defaults appends exactly one
set_temp command — with the nulls passed through verbatim — to the outbound
queue, whatever the queue already holds, and returns True. -/
theorem set_temp_enqueues_single_command (st : ServerState) :
    set_temp st (JVal.num 200) JVal.null JVal.null =
      ({ st with toPrinter := st.toPrinter ++
          [JVal.obj [("method", JVal.str "set_temp"),
                     ("params", JVal.obj [("bed", JVal.num 200),
                                          ("nozzle1", JVal.null),
                                          ("nozzle2", JVal.null)])]] },
       JVal.bool true) :=
  rfl

/-
Claim C7.
-/

/-- Claim C7: uploading payload "G1 X10\n" under name "test.gcode" (with a
fresh id and a successful blob write) returns id, name and size 7, and a
subsequent get_gcode_file on that id with content requested returns the same
payload unchanged. -/
theorem put_get_roundtrip (st : ServerState)
    (hfresh : ∀ g ∈ st.storage.db, g.id ≠ st.storage.nextId)
    (hok : st.storage.writeFails st.storage.nextId = false) :
    (put_gcode_file st "G1 X10\n" "test.gcode").2 =
      Except.ok { id := st.storage.nextId, name := "test.gcode", size := 7 } ∧
    get_gcode_file (put_gcode_file st "G1 X10\n" "test.gcode").1.storage
        st.storage.nextId true =
      Except.ok { id := st.storage.nextId, name := "test.gcode", size := 7,
                  content := some "G1 X10\n" } := by
  have hsize : ("G1 X10\n").utf8ByteSize = 7 := rfl
  have hfind : st.storage.db.find? (fun g => g.id == st.storage.nextId) = none := by
    rw [List.find?_eq_none]
    intro g hg
    simpa using hfresh g hg
  constructor
  · simp [put_gcode_file, hok, hsize]
  · simp [put_gcode_file, hok, get_gcode_file, List.find?_append, hfind,
          List.find?, hsize]

/-- Claim C7 witness: the round trip evaluated on the fresh server state. -/
theorem put_get_roundtrip_witness :
    (put_gcode_file ss0 "G1 X10\n" "test.gcode").2 =
      Except.ok { id := 1, name := "test.gcode", size := 7 } ∧
    get_gcode_file (put_gcode_file ss0 "G1 X10\n" "test.gcode").1.storage 1 true =
      Except.ok { id := 1, name := "test.gcode", size := 7,
                  content := some "G1 X10\n" } :=
  put_get_roundtrip ss0 (by intro g hg; simp [ss0, st0] at hg) rfl

/-
Claim C8.
-/

/-- Claim C8: no dispatcher operation mutates the PRINTER snapshot — for
every server state and every argument list, set_temp, move_head, home_head,
put_gcode_file, get_gcode_file, get_gcode_files and get_counters all leave
the printer field of the state unchanged. -/
theorem dispatcher_preserves_snapshot (st : ServerState)
    (bed nozzle1 nozzle2 x y z ax ay az : JVal)
    (payload nm : String) (id : Nat) (content : Bool) :
    (set_temp st bed nozzle1 nozzle2).1.printer = st.printer ∧
    (move_head st x y z).1.printer = st.printer ∧
    (home_head st ax ay az).1.printer = st.printer ∧
    (put_gcode_file st payload nm).1.printer = st.printer ∧
    (get_gcode_file_op st id content).1.printer = st.printer ∧
    (get_gcode_files st).1.printer = st.printer ∧
    (get_counters st).1.printer = st.printer := by
  refine ⟨rfl, rfl, rfl, ?_, rfl, rfl, rfl⟩
  cases hw : st.storage.writeFails st.storage.nextId <;>
    simp [put_gcode_file, hw]

/-
Claim C9.
-/

/-- Claim C9 counterexample: over an empty storage whose blob writes fail,
put_gcode_file raises the I/O failure with the metadata row committed — but
fetching the content of the new id does not fail with the not-found kind: the
blob was already created (empty) when the write failed, so the fetch succeeds
and returns empty content. -/
theorem put_failure_content_not_notfound_cex :
    (put_gcode_file ssFail "G1 X10\n" "test.gcode").2 =
      Except.error PyErr.ioError ∧
    get_gcode_file (put_gcode_file ssFail "G1 X10\n" "test.gcode").1.storage
        1 true =
      Except.ok { id := 1, name := "test.gcode", size := 7, content := some "" } ∧
    get_gcode_file (put_gcode_file ssFail "G1 X10\n" "test.gcode").1.storage
        1 true ≠ Except.error PyErr.indexError := by
  refine ⟨rfl, rfl, ?_⟩
  intro h
  exact Except.noConfusion h

/-- Claim C9 (amended): put_gcode_file is not atomic on failure — the
metadata row is committed before the payload write, so when the write fails
the operation raises the I/O failure kind while the row persists and remains
visible to get_gcode_files and to get_gcode_file; fetching its content,
however, succeeds with empty content (the blob file was created, empty, by
the open call before the failed write) rather than failing with the
not-found kind. -/
theorem put_gcode_file_nonatomic (st : ServerState) (payload nm : String)
    (hfresh : ∀ g ∈ st.storage.db, g.id ≠ st.storage.nextId)
    (hfail : st.storage.writeFails st.storage.nextId = true) :
    (put_gcode_file st payload nm).2 = Except.error PyErr.ioError ∧
    (put_gcode_file st payload nm).1.storage.db =
      st.storage.db ++ [{ id := st.storage.nextId, name := nm,
                          size := payload.utf8ByteSize }] ∧
    get_gcode_file (put_gcode_file st payload nm).1.storage
        st.storage.nextId false =
      Except.ok { id := st.storage.nextId, name := nm,
                  size := payload.utf8ByteSize, content := none } ∧
    get_gcode_file (put_gcode_file st payload nm).1.storage
        st.storage.nextId true =
      Except.ok { id := st.storage.nextId, name := nm,
                  size := payload.utf8ByteSize, content := some "" } ∧
    (get_gcode_files (put_gcode_file st payload nm).1).2 =
      (get_gcode_files st).2 ++ [{ id := st.storage.nextId, name := nm,
                                   size := payload.utf8ByteSize }] := by
  have hfind : st.storage.db.find? (fun g => g.id == st.storage.nextId) = none := by
    rw [List.find?_eq_none]
    intro g hg
    simpa using hfresh g hg
  refine ⟨?_, ?_, ?_, ?_, ?_⟩
  · simp [put_gcode_file, hfail]
  · simp [put_gcode_file, hfail]
  · simp [put_gcode_file, hfail, get_gcode_file, List.find?_append, hfind,
          List.find?]
  · simp [put_gcode_file, hfail, get_gcode_file, List.find?_append, hfind,
          List.find?]
  · simp [put_gcode_file, hfail, get_gcode_files]

/-- Claim C9 witness: the amended theorem evaluated on the failing storage. -/
theorem put_gcode_file_nonatomic_witness :
    (put_gcode_file ssFail "G1" "a.gcode").2 = Except.error PyErr.ioError ∧
    (put_gcode_file ssFail "G1" "a.gcode").1.storage.db =
      [{ id := 1, name := "a.gcode", size := 2 }] ∧
    get_gcode_file (put_gcode_file ssFail "G1" "a.gcode").1.storage 1 false =
      Except.ok { id := 1, name := "a.gcode", size := 2, content := none } ∧
    get_gcode_file (put_gcode_file ssFail "G1" "a.gcode").1.storage 1 true =
      Except.ok { id := 1, name := "a.gcode", size := 2, content := some "" } ∧
    (get_gcode_files (put_gcode_file ssFail "G1" "a.gcode").1).2 =
      [{ id := 1, name := "a.gcode", size := 2 }] :=
  put_gcode_file_nonatomic ssFail "G1" "a.gcode"
    (by intro g hg; simp [ssFail] at hg) rfl

/-
Claim C10.
-/

/-- Claim C10: a temp_update event replaces the whole cached temperature
mapping with the params value of the event, verbatim, whatever keys it
carries (or lacks), without raising and without dropping the event. -/
theorem temp_update_replaces_mapping (p : Printer) (e ps : JVal)
    (hev : e.getKey "event" = Except.ok (JVal.str "temp_update"))
    (hps : e.getKey "params" = Except.ok ps) :
    process_event p e = Except.ok { p with temp := ps } := by
  have i1 : isStr (JVal.str "temp_update") "state_change" = false := rfl
  have i2 : isStr (JVal.str "temp_update") "temp_update" = true := rfl
  simp [process_event, process_event_try, hev, hps, i1, i2]

/-- Claim C10 witness: a temp_update with empty params leaves the cached
temperature mapping empty — without bed, nozzle1 or nozzle2 keys — rather
than being dropped. -/
theorem temp_update_replaces_mapping_witness :
    process_event initPrinter
        (JVal.obj [("event", JVal.str "temp_update"),
                   ("params", JVal.obj [])]) =
      Except.ok { initPrinter with temp := JVal.obj [] } :=
  temp_update_replaces_mapping initPrinter
    (JVal.obj [("event", JVal.str "temp_update"), ("params", JVal.obj [])])
    (JVal.obj []) rfl rfl

end OpenGB
